import Mathlib

/-!
Shallow embedding of the FireGen job orchestrator and its polling utilities.

Source files embedded:
- functions/src/job-orchestrator.ts: startJob, analyzeAndTransformJob, getFileExtension
- functions/src/poller.ts: isJobExpired, isJobTerminal, initializeJobMetadata
  (rendered here as initJobMetadata), incrementPollAttempt, recordPollError
- functions/src/version.ts: FIREGEN_VERSION

Conventions of the embedding:
- RTDB partial updates become explicit record transformations on a JobNode value;
  each update call of the source appears as one dbWrite event carrying the
  post-write snapshot of the record.
- Timestamps are Nat; each handler receives the current time as a parameter
  standing for Date.now().
- JavaScript truthiness of optional strings is modelled explicitly: a field is
  truthy iff it is present and nonempty.
- External collaborators (the model adapter's start call, the signed-URL
  generator, the language-model analysis) are parameters of an environment
  record; the adapter call and the poll-task enqueue are recorded as events so
  that backend submissions can be counted.
- The empty object literal used as a rawResponse fallback is modelled as the
  empty string, since the response payload is opaque to the orchestrator.
-/

namespace Firegen

/-- Static extension version from functions/src/version.ts. -/
def FIREGEN_VERSION : String := "0.3.3"

/-- Modelled from the spec: functions/src/config.ts is absent from src; the
repository documentation fixes the job TTL at 90 minutes. -/
def JOB_TTL_MS : Nat := 90 * 60 * 1000

/-- Modelled from the spec: functions/src/config.ts is absent from src; the
repository documentation fixes the poll interval at 1 second. -/
def POLL_INTERVAL_MS : Nat := 1000

/-- Modelled from the spec: functions/src/models/index.ts is absent from src;
the registry rejects model identifiers outside the documented allow-list of
the five supported models. -/
def isValidModelId (m : String) : Bool :=
  ["veo-3.1-generate-preview", "veo-3.1-fast-generate-preview",
   "gemini-2.5-flash-image",
   "gemini-2.5-flash-preview-tts", "gemini-2.5-pro-preview-tts"].contains m

/-- JavaScript truthiness of an optional string field: truthy iff present and
nonempty (the empty string is falsy). -/
def jsTruthyStr : Option String → Bool
  | none => false
  | some s => s != ""

/-- Opaque structured request payload (the orchestrator never inspects it). -/
structure JobRequest where
  raw : String
deriving Repr, DecidableEq

/-- File descriptor of the flat files array written on success. -/
structure FileInfo where
  name : String
  gs : String
  https : String
  mimeType : Option String := none
  size : Option Nat := none
deriving Repr, DecidableEq

/-- Error payload written on failure. -/
structure JobError where
  code : String
  message : String
deriving Repr, DecidableEq

/-- Assisted-mode payload: original prompt plus the reasoning trail. -/
structure Assisted where
  prompt : String
  reasons : List String
deriving Repr, DecidableEq

/-- Job metadata subtree. version, createdAt and updatedAt are always written;
the polling fields are optional. -/
structure JobMetadata where
  version : String
  createdAt : Nat
  updatedAt : Nat
  operation : Option String := none
  ttl : Option Nat := none
  attempt : Option Nat := none
  nextPoll : Option Nat := none
  lastError : Option Nat := none
deriving Repr, DecidableEq

/-- Default metadata used when an update path touches a missing metadata
subtree (RTDB creates intermediate paths on update). -/
def defaultMetadata : JobMetadata :=
  { version := "", createdAt := 0, updatedAt := 0 }

/-- The persisted job record. -/
structure JobNode where
  uid : String
  model : String
  status : String
  request : JobRequest
  response : Option String := none
  files : Option (List FileInfo) := none
  error : Option JobError := none
  assisted : Option Assisted := none
  metadata : Option JobMetadata := none
deriving Repr, DecidableEq

instance : Inhabited JobNode :=
  ⟨{ uid := "", model := "", status := "", request := { raw := "" } }⟩

/-- Apply an update to the metadata subtree, creating it if missing. -/
def withMeta (j : JobNode) (f : JobMetadata → JobMetadata) : JobNode :=
  { j with metadata := some (f (j.metadata.getD defaultMetadata)) }

/-! Poller utilities from functions/src/poller.ts. -/

/-- Embeds isJobExpired: the guard reads the optional chain
job.metadata?.ttl and returns false when it is falsy, which in JavaScript
covers both a missing ttl and a ttl equal to zero; otherwise it compares
Date.now() against the ttl. -/
def isJobExpired (job : JobNode) (now : Nat) : Bool :=
  match job.metadata with
  | none => false
  | some m =>
    match m.ttl with
    | none => false
    | some t => if t == 0 then false else decide (t < now)

/-- Embeds isJobTerminal. -/
def isJobTerminal (job : JobNode) : Bool :=
  ["succeeded", "failed", "expired", "canceled"].contains job.status

/-- Embeds the metadata initializer of poller.ts (source name
initializeJobMetadata): fresh jobs get version tracking plus ttl, attempt and
nextPoll seeded from the current time. -/
def initJobMetadata (now : Nat) : JobMetadata :=
  { version := FIREGEN_VERSION, createdAt := now, updatedAt := now,
    ttl := some (now + JOB_TTL_MS), attempt := some 0,
    nextPoll := some (now + POLL_INTERVAL_MS) }

/-- Embeds incrementPollAttempt: a metadata-only update. -/
def incrementPollAttempt (job : JobNode) (currentAttempt now : Nat) : JobNode :=
  withMeta job (fun m =>
    { m with attempt := some (currentAttempt + 1),
             nextPoll := some (now + POLL_INTERVAL_MS),
             updatedAt := now })

/-- Embeds recordPollError: a metadata-only update that additionally stamps
lastError. -/
def recordPollError (job : JobNode) (currentAttempt now : Nat) : JobNode :=
  withMeta job (fun m =>
    { m with attempt := some (currentAttempt + 1),
             nextPoll := some (now + POLL_INTERVAL_MS),
             lastError := some now,
             updatedAt := now })

/-! Orchestrator from functions/src/job-orchestrator.ts. -/

/-- Character class of the extension regex: ASCII letters and digits. -/
def isExtChar (c : Char) : Bool := c.isAlpha || c.isDigit

/-- Collect the characters of a reversed string until the first dot; none when
no dot occurs at all. Used to mirror the regex that grabs the final
dot-extension of a URI. -/
def takeUntilDot : List Char → Option (List Char)
  | [] => none
  | c :: cs => if c == '.' then some [] else (takeUntilDot cs).map (fun r => c :: r)

/-- Extension of a URI per the orchestrator's regex: the suffix after the last
dot, accepted only when nonempty and made of letters and digits, returned with
its leading dot. -/
def extFromUri (uri : String) : Option String :=
  match takeUntilDot uri.data.reverse with
  | none => none
  | some revExt =>
    let ext := revExt.reverse
    if ext.isEmpty then none
    else if ext.all isExtChar then some (String.mk ('.' :: ext)) else none

/-- MIME-type-to-extension table of getFileExtension. -/
def mimeExt (m : String) : String :=
  if m == "video/mp4" then ".mp4"
  else if m == "image/png" then ".png"
  else if m == "image/jpeg" then ".jpg"
  else if m == "audio/wav" then ".wav"
  else if m == "audio/mpeg" then ".mp3"
  else ""

/-- Embeds getFileExtension: try the URI's trailing dot-extension first, fall
back to the MIME-type table, else the empty string. Both arguments are guarded
by JavaScript truthiness. -/
def getFileExtension (uri mimeType : Option String) : String :=
  let fromUri : Option String :=
    match uri with
    | some u => if u != "" then extFromUri u else none
    | none => none
  match fromUri with
  | some e => e
  | none =>
    match mimeType with
    | some m => if m != "" then mimeExt m else ""
    | none => ""

/-- Normalized output of a synchronous adapter start. -/
structure AdapterOutput where
  uri : Option String := none
  mimeType : Option String := none
  size : Option Nat := none
  text : Option String := none
deriving Repr, DecidableEq

/-- Result of the adapter's start call. -/
structure StartResult where
  operationName : Option String := none
  output : Option AdapterOutput := none
  rawResponse : Option String := none
deriving Repr, DecidableEq

/-- Exceptions the start path can observe: a Zod validation error (carrying
the joined issue list) or an ordinary Error (carrying its message). -/
inductive JsError
  | zodError (issues : String)
  | jsError (message : String)
deriving Repr, DecidableEq

/-- Error code and message selected by startJob's catch block. -/
def errCodeMsg : JsError → String × String
  | .zodError issues => ("VALIDATION_ERROR", "Validation failed: " ++ issues)
  | .jsError message => ("START_FAILED", message)

/-- Observable side effects of a handler invocation: a database write carrying
the post-write record snapshot, a backend submission via the adapter's start,
or an enqueued poll task. -/
inductive JobEvent
  | dbWrite (j : JobNode)
  | adapterStartCall
  | enqueuePoll
deriving Repr, DecidableEq

/-- Number of backend submissions in an event trace. -/
def countAdapterStarts : List JobEvent → Nat
  | [] => 0
  | .adapterStartCall :: es => countAdapterStarts es + 1
  | _ :: es => countAdapterStarts es

/-- Snapshots carried by the database writes of an event trace, in order. -/
def writtenNodes : List JobEvent → List JobNode
  | [] => []
  | .dbWrite j :: es => j :: writtenNodes es
  | _ :: es => writtenNodes es

/-- First database write of an event trace, if any. -/
def firstWrite (ev : List JobEvent) : Option JobNode :=
  (writtenNodes ev).head?

/-- Environment of a startJob invocation: the current time, the outcome of the
adapter's start call on this job's request, and the signed-URL generator. -/
structure StartEnv where
  now : Nat
  adapterResult : Except JsError StartResult
  signUrl : String → Option String

/-- First update of startJob: status starting plus an updatedAt stamp. -/
def startingWrite (now : Nat) (job : JobNode) : JobNode :=
  withMeta { job with status := "starting" } (fun m => { m with updatedAt := now })

/-- Catch-block update of startJob: status failed plus the error payload. -/
def failWrite (now : Nat) (code msg : String) (j : JobNode) : JobNode :=
  withMeta { j with status := "failed", error := some { code := code, message := msg } }
    (fun m => { m with updatedAt := now })

/-- Asynchronous-path update of startJob: status running, the operation
handle, and fresh ttl, attempt and nextPoll. -/
def runningWrite (now : Nat) (opName : Option String) (j : JobNode) : JobNode :=
  withMeta { j with status := "running" } (fun m =>
    { m with updatedAt := now, operation := opName,
             ttl := some (now + JOB_TTL_MS), attempt := some 0,
             nextPoll := some (now + POLL_INTERVAL_MS) })

/-- Files array built on the synchronous path: one entry when the output
carries a truthy storage URI, empty otherwise. The entry's name is file0 plus
the inferred extension; its signed URL is generated before the success write;
mimeType is copied only when truthy, size only when present. -/
def syncFileList (signUrl : String → Option String) (out : AdapterOutput) : List FileInfo :=
  match out.uri with
  | some u =>
    if u == "" then []
    else
      [ { name := "file0" ++ getFileExtension (some u) out.mimeType,
          gs := u,
          https := (signUrl u).getD "",
          mimeType := if jsTruthyStr out.mimeType then out.mimeType else none,
          size := out.size } ]
  | none => []

/-- Synchronous-path update of startJob: status succeeded, the raw response
(empty-object fallback modelled as the empty string), and the files array,
which is written only when nonempty. -/
def succeededWrite (env : StartEnv) (result : StartResult) (out : AdapterOutput)
    (j : JobNode) : JobNode :=
  withMeta
    { j with
      status := "succeeded",
      response := some ((result.rawResponse).getD ""),
      files := if (syncFileList env.signUrl out).length > 0
               then some (syncFileList env.signUrl out) else none }
    (fun m => { m with updatedAt := env.now })

/-- Embeds startJob: write status starting, reject unknown model identifiers
before any backend call, submit via the adapter, then branch on the result:
truthy operationName takes the asynchronous path (running write plus first
poll task), a present output takes the synchronous path (succeeded write), and
anything else is the adapter contract violation; every thrown error lands in
the catch block's failed write. Returns the final record and the event
trace. -/
def startJob (env : StartEnv) (jobId : String) (job : JobNode) :
    JobNode × List JobEvent :=
  let j1 := startingWrite env.now job
  if isValidModelId job.model then
    match env.adapterResult with
    | .error e =>
      (failWrite env.now (errCodeMsg e).1 (errCodeMsg e).2 j1,
       [.dbWrite j1, .adapterStartCall,
        .dbWrite (failWrite env.now (errCodeMsg e).1 (errCodeMsg e).2 j1)])
    | .ok result =>
      if jsTruthyStr result.operationName then
        (runningWrite env.now result.operationName j1,
         [.dbWrite j1, .adapterStartCall,
          .dbWrite (runningWrite env.now result.operationName j1), .enqueuePoll])
      else
        match result.output with
        | some out =>
          (succeededWrite env result out j1,
           [.dbWrite j1, .adapterStartCall,
            .dbWrite (succeededWrite env result out j1)])
        | none =>
          (failWrite env.now "START_FAILED" "Model adapter returned invalid result" j1,
           [.dbWrite j1, .adapterStartCall,
            .dbWrite (failWrite env.now "START_FAILED" "Model adapter returned invalid result" j1)])
  else
    (failWrite env.now "START_FAILED" ("Unknown model ID: " ++ job.model) j1,
     [.dbWrite j1,
      .dbWrite (failWrite env.now "START_FAILED" ("Unknown model ID: " ++ job.model) j1)])

/-- Analyzer outcome consumed by analyzeAndTransformJob. -/
structure Analyzed where
  model : String
  request : JobRequest
  reasons : List String
deriving Repr, DecidableEq

/-- Environment of an analyzeAndTransformJob invocation: the current time, the
outcome of the assistedRequest analysis of the prompt, and the environment of
the subsequent startJob call. -/
structure AnalyzeEnv where
  now : Nat
  assistedResult : Except String Analyzed
  startEnv : StartEnv

/-- Empty request written when the analysis failed. -/
def emptyRequest : JobRequest := { raw := "" }

/-- Embeds analyzeAndTransformJob: on analysis success, replace the free-text
node with the complete structured job (status requested, assisted payload,
metadata seeded with ttl, attempt and nextPoll) and immediately start it; on
analysis failure, write the job exactly once as failed with code
AI_ANALYSIS_FAILED, preserving the original prompt, with no polling metadata
and no retry. -/
def analyzeAndTransformJob (env : AnalyzeEnv) (jobId prompt uid : String) :
    JobNode × List JobEvent :=
  match env.assistedResult with
  | .ok analyzed =>
    let completeJob : JobNode :=
      { uid := uid, model := analyzed.model, status := "requested",
        request := analyzed.request,
        assisted := some { prompt := prompt, reasons := analyzed.reasons },
        metadata := some { version := FIREGEN_VERSION,
                           createdAt := env.now, updatedAt := env.now,
                           ttl := some (env.now + JOB_TTL_MS), attempt := some 0,
                           nextPoll := some (env.now + POLL_INTERVAL_MS) } }
    let res := startJob env.startEnv jobId completeJob
    (res.1, .dbWrite completeJob :: res.2)
  | .error message =>
    let failJob : JobNode :=
      { uid := uid, model := "unknown", status := "failed", request := emptyRequest,
        error := some { code := "AI_ANALYSIS_FAILED",
                        message := "AI analysis failed: " ++ message },
        assisted := some { prompt := prompt, reasons := [] },
        metadata := some { version := FIREGEN_VERSION,
                           createdAt := env.now, updatedAt := env.now } }
    (failJob, [.dbWrite failJob])

/-! Assisted-mode URL tagging codec. -/

/-- Boolean string-suffix test on the underlying character lists. -/
def strEndsWith (s suffix : String) : Bool := suffix.data.isSuffixOf s.data

/-- Tagged text shown to the language model: ordinary words stay plain, each
detected resource reference is replaced by an opaque placeholder carrying its
index in the reference table and its inferred media type. -/
inductive TagTok
  | plain (s : String)
  | placeholder (idx : Nat) (mime : String)
deriving Repr, DecidableEq

/-- Modelled from the spec: the reference detector of the absent
assisted-mode URL utilities; a token is a storage reference when it is a
gs storage URI. -/
def isStorageRef (s : String) : Bool := "gs://".data.isPrefixOf s.data

/-- Modelled from the spec: media-type inference from the file extension of
the absent assisted-mode URL utilities, covering the media types of the
supported models. -/
def inferMediaType (uri : String) : String :=
  if strEndsWith uri ".jpg" || strEndsWith uri ".jpeg" then "image/jpeg"
  else if strEndsWith uri ".png" then "image/png"
  else if strEndsWith uri ".mp4" then "video/mp4"
  else if strEndsWith uri ".wav" then "audio/wav"
  else if strEndsWith uri ".mp3" then "audio/mpeg"
  else "application/octet-stream"

/-- Index of a reference in the deduplication table. -/
def refIndex : List String → String → Option Nat
  | [], _ => none
  | t :: ts, u => if t == u then some 0 else (refIndex ts u).map (· + 1)

/-- Modelled from the spec: the tagging pass of the absent assisted-mode URL
utilities. Walks the tokens of the free text threading the deduplication
table: a storage reference already in the table reuses its index, a new one is
appended; every reference becomes a placeholder encoding its index and
inferred media type. Returns the tagged tokens and the final table. -/
def tagGo : List String → List String → List TagTok × List String
  | tbl, [] => ([], tbl)
  | tbl, t :: ts =>
    if isStorageRef t then
      match refIndex tbl t with
      | some i =>
        let r := tagGo tbl ts
        (TagTok.placeholder i (inferMediaType t) :: r.1, r.2)
      | none =>
        let r := tagGo (tbl ++ [t]) ts
        (TagTok.placeholder tbl.length (inferMediaType t) :: r.1, r.2)
    else
      let r := tagGo tbl ts
      (TagTok.plain t :: r.1, r.2)

/-- Tagging pass started with an empty reference table. -/
def tagReferences (ts : List String) : List TagTok × List String := tagGo [] ts

/-- Modelled from the spec: placeholder resolution of the absent assisted-mode
URL utilities; a placeholder resolves to the reference stored at its index in
the table, a plain token to itself. -/
def resolveTok (tbl : List String) : TagTok → String
  | .plain s => s
  | .placeholder i _ => tbl.getD i ""

/-! Concrete fixtures used by counterexamples and witnesses. -/

/-- Job already past the requested state, as left behind by a first delivery
of the job-created trigger. -/
def dupJob : JobNode :=
  { uid := "user-1", model := "veo-3.1-fast-generate-preview", status := "requested",
    request := { raw := "sunset video" },
    metadata := some { version := FIREGEN_VERSION, createdAt := 0, updatedAt := 0 } }

/-- Environment whose adapter reports an asynchronous operation handle. -/
def dupEnv : StartEnv :=
  { now := 1000, adapterResult := .ok { operationName := some "operations/op-123" },
    signUrl := fun _ => none }

/-- Adapter result violating the contract in the direction the source does
not detect: operation handle and synchronous output both present. -/
def bothResult : StartResult :=
  { operationName := some "operations/op-9",
    output := some { uri := some "gs://bucket/out.mp4", mimeType := some "video/mp4" },
    rawResponse := some "raw" }

/-- Environment delivering the doubly-populated adapter result. -/
def bothEnv : StartEnv :=
  { now := 5, adapterResult := .ok bothResult, signUrl := fun _ => some "https://signed" }

/-- Job for the doubly-populated adapter result. -/
def bothJob : JobNode :=
  { uid := "user-2", model := "veo-3.1-generate-preview", status := "requested",
    request := { raw := "q" } }

/-- Analyzer outcome selecting a video model. -/
def okAnalyzed : Analyzed :=
  { model := "veo-3.1-fast-generate-preview", request := { raw := "video request" },
    reasons := ["selected video"] }

/-- Environment whose analysis succeeds and whose subsequent start reports an
operation handle. -/
def okAnalyzeEnv : AnalyzeEnv :=
  { now := 40, assistedResult := .ok okAnalyzed,
    startEnv := { now := 50, adapterResult := .ok { operationName := some "operations/op-3" },
                  signUrl := fun _ => none } }

/-- First record written by the succeeding analyzer on the fixture above. -/
def okAnalyzeWritten : JobNode :=
  (firstWrite (analyzeAndTransformJob okAnalyzeEnv "job-1" "make a video" "user-7").2).getD default

/-- Environment whose analysis fails. -/
def failAnalyzeEnv : AnalyzeEnv :=
  { now := 40, assistedResult := .error "model call failed",
    startEnv := { now := 50, adapterResult := .ok {}, signUrl := fun _ => none } }

/-- Synchronous adapter result with a media output. -/
def syncResult : StartResult :=
  { output := some { uri := some "gs://bucket/firegen-jobs/j7/video-out.mp4",
                     mimeType := some "video/mp4", size := some 1024 },
    rawResponse := some "resp" }

/-- Environment delivering the synchronous media result. -/
def syncEnv : StartEnv :=
  { now := 7, adapterResult := .ok syncResult, signUrl := fun _ => some "https://signed-url" }

/-- Job for the synchronous media result. -/
def syncJob : JobNode :=
  { uid := "user-3", model := "veo-3.1-generate-preview", status := "requested",
    request := { raw := "r" } }

/-- Environment whose adapter result is empty in both fields. -/
def invalidEnv : StartEnv :=
  { now := 11, adapterResult := .ok {}, signUrl := fun _ => none }

/-- Job referencing a model identifier outside the allow-list. -/
def unknownModelJob : JobNode :=
  { uid := "user-4", model := "imagen-4.0-ultra", status := "requested",
    request := { raw := "r" } }

/-- Running job whose ttl is the zero timestamp, which JavaScript truthiness
conflates with an absent ttl. -/
def zeroTtlJob : JobNode :=
  { uid := "user-5", model := "veo-3.1-generate-preview", status := "running",
    request := { raw := "r" },
    metadata := some { version := FIREGEN_VERSION, createdAt := 0, updatedAt := 0,
                       ttl := some 0 } }

/-- Running job with an ordinary ttl, used to exercise expiry. -/
def runningJob : JobNode :=
  { uid := "user-6", model := "veo-3.1-generate-preview", status := "running",
    request := { raw := "r" },
    metadata := some { version := FIREGEN_VERSION, createdAt := 1, updatedAt := 1,
                       ttl := some 10, attempt := some 2, nextPoll := some 3 } }

/-! Theorems settling the claims. -/

/-- Claim C10 (amended): isJobExpired returns true exactly when the job
carries a present, nonzero ttl strictly below the current time; a job with no
metadata, no ttl, or the JavaScript-falsy ttl zero is never considered
expired. -/
theorem isJobExpired_iff (job : JobNode) (now : Nat) :
    isJobExpired job now = true ↔
      ∃ m t, job.metadata = some m ∧ m.ttl = some t ∧ t ≠ 0 ∧ t < now := by
  cases hmd : job.metadata with
  | none => simp [isJobExpired, hmd]
  | some m =>
    cases httl : m.ttl with
    | none => simp [isJobExpired, hmd, httl]
    | some t =>
      rcases Nat.eq_zero_or_pos t with h0 | h0
      · subst h0
        simp [isJobExpired, hmd, httl]
      · have h0' : t ≠ 0 := Nat.pos_iff_ne_zero.mp h0
        simp [isJobExpired, hmd, httl, h0']

/-- Claim C10 witness: a running job with ttl ten is expired at time
ninety-nine. -/
theorem isJobExpired_iff_witness : isJobExpired runningJob 99 = true :=
  (isJobExpired_iff runningJob 99).mpr ⟨_, 10, rfl, rfl, by decide, by decide⟩

/-- Claim C10 counterexample: a job whose ttl is present and equal to zero is
not reported expired at time one, although the current time strictly exceeds
the ttl, because JavaScript truthiness conflates a zero ttl with an absent
one. -/
theorem isJobExpired_zero_ttl_counterexample :
    (zeroTtlJob.metadata.getD defaultMetadata).ttl = some 0 ∧
    (0 : Nat) < 1 ∧ isJobExpired zeroTtlJob 1 = false :=
  ⟨rfl, Nat.zero_lt_one, rfl⟩

/-- Claim C8: recordPollError, invoked with the job's current attempt, is a
metadata-only update: it increments attempt by exactly one and stamps
lastError, nextPoll and updatedAt with the current time, while the status,
every other field of the record, and the remaining metadata fields (version,
createdAt, operation, ttl) are unchanged. -/
theorem recordPollError_frame (job : JobNode) (m : JobMetadata) (a now : Nat)
    (hm : job.metadata = some m) (ha : m.attempt = some a) :
    (recordPollError job a now).status = job.status ∧
    (recordPollError job a now).uid = job.uid ∧
    (recordPollError job a now).model = job.model ∧
    (recordPollError job a now).request = job.request ∧
    (recordPollError job a now).response = job.response ∧
    (recordPollError job a now).files = job.files ∧
    (recordPollError job a now).error = job.error ∧
    (recordPollError job a now).assisted = job.assisted ∧
    (recordPollError job a now).metadata =
      some { m with
             attempt := some (a + 1),
             nextPoll := some (now + POLL_INTERVAL_MS),
             lastError := some now,
             updatedAt := now } := by
  refine ⟨rfl, rfl, rfl, rfl, rfl, rfl, rfl, rfl, ?_⟩
  simp [recordPollError, withMeta, hm]

/-- Claim C8 witness: the frame theorem applied to the concrete running job
with attempt two at time twenty. -/
theorem recordPollError_frame_witness :
    (recordPollError runningJob 2 20).status = runningJob.status :=
  (recordPollError_frame runningJob _ 2 20 rfl rfl).1

/-- Claim C1: the duplicate-delivery guard is absent: startJob never consults
the current status, so a first delivery moves the fixture job to running and a
second delivery of the same job-created event submits to the backend again;
each invocation performs exactly one backend submission regardless of the
status it observes. -/
theorem startJob_duplicate_delivery_resubmits :
    (startJob dupEnv "job-1" dupJob).1.status = "running" ∧
    countAdapterStarts (startJob dupEnv "job-1" dupJob).2 = 1 ∧
    countAdapterStarts (startJob dupEnv "job-1" (startJob dupEnv "job-1" dupJob).1).2 = 1 :=
  ⟨rfl, rfl, rfl⟩

/-- Claim C2 counterexample: an adapter result with operationName and output
both present is not treated as a contract violation: startJob takes the
asynchronous path, writing status running with no error. -/
theorem startJob_both_present_takes_async_path :
    jsTruthyStr bothResult.operationName = true ∧
    bothResult.output.isSome = true ∧
    (startJob bothEnv "job-2" bothJob).1.status = "running" ∧
    (startJob bothEnv "job-2" bothJob).1.error = none :=
  ⟨rfl, rfl, rfl, rfl⟩

/-- Claim C2 (amended): when the adapter result carries neither a truthy
operation handle nor an output, startJob surfaces the contract violation as a
failed write with code START_FAILED; a truthy operation handle takes
precedence, so the asynchronous path is taken and no violation is raised even
when an output is also present. -/
theorem startJob_invalid_result (env : StartEnv) (jobId : String) (job : JobNode)
    (r : StartResult)
    (hv : isValidModelId job.model = true)
    (hr : env.adapterResult = .ok r) :
    (jsTruthyStr r.operationName = false → r.output = none →
      (startJob env jobId job).1.status = "failed" ∧
      (startJob env jobId job).1.error =
        some { code := "START_FAILED", message := "Model adapter returned invalid result" }) ∧
    (jsTruthyStr r.operationName = true →
      (startJob env jobId job).1.status = "running" ∧
      (startJob env jobId job).1.error = job.error) := by
  constructor
  · intro hop hout
    simp [startJob, hv, hr, hop, hout, failWrite, withMeta, startingWrite]
  · intro hop
    simp [startJob, hv, hr, hop, runningWrite, withMeta, startingWrite]

/-- Claim C2 witness: the amended theorem applied to an environment whose
adapter result is empty in both fields. -/
theorem startJob_invalid_result_witness :
    (startJob invalidEnv "job-3" syncJob).1.status = "failed" :=
  ((startJob_invalid_result invalidEnv "job-3" syncJob {} rfl rfl).1 rfl rfl).1

/-- Claim C5: a job referencing a model identifier outside the registry
allow-list is failed with error code START_FAILED, and the adapter's start is
never invoked: the event trace contains no backend submission. -/
theorem startJob_unknown_model (env : StartEnv) (jobId : String) (job : JobNode)
    (hv : isValidModelId job.model = false) :
    (startJob env jobId job).1.status = "failed" ∧
    ((startJob env jobId job).1.error).map JobError.code = some "START_FAILED" ∧
    countAdapterStarts (startJob env jobId job).2 = 0 := by
  refine ⟨?_, ?_, ?_⟩ <;>
    simp [startJob, hv, failWrite, withMeta, startingWrite, countAdapterStarts]

/-- Claim C5 witness: the unknown-model theorem applied to a job naming a
model outside the allow-list. -/
theorem startJob_unknown_model_witness :
    countAdapterStarts (startJob invalidEnv "job-4" unknownModelJob).2 = 0 :=
  (startJob_unknown_model invalidEnv "job-4" unknownModelJob rfl).2.2

/-- Claim C4: when the adapter reports a truthy operation handle, startJob
writes status running together with ttl = now + JOB_TTL_MS, attempt = 0 and
nextPoll = now + POLL_INTERVAL_MS, records the handle, and enqueues the first
poll task. -/
theorem startJob_async_transition (env : StartEnv) (jobId : String) (job : JobNode)
    (r : StartResult)
    (hv : isValidModelId job.model = true)
    (hr : env.adapterResult = .ok r)
    (hop : jsTruthyStr r.operationName = true) :
    (startJob env jobId job).1.status = "running" ∧
    ((startJob env jobId job).1.metadata.getD defaultMetadata).ttl =
      some (env.now + JOB_TTL_MS) ∧
    ((startJob env jobId job).1.metadata.getD defaultMetadata).attempt = some 0 ∧
    ((startJob env jobId job).1.metadata.getD defaultMetadata).nextPoll =
      some (env.now + POLL_INTERVAL_MS) ∧
    ((startJob env jobId job).1.metadata.getD defaultMetadata).operation = r.operationName ∧
    JobEvent.enqueuePoll ∈ (startJob env jobId job).2 := by
  refine ⟨?_, ?_, ?_, ?_, ?_, ?_⟩ <;>
    simp [startJob, hv, hr, hop, runningWrite, withMeta, startingWrite]

/-- Claim C4 witness: the asynchronous transition applied to the fixture job
and the operation-handle environment. -/
theorem startJob_async_transition_witness :
    ((startJob dupEnv "job-1" dupJob).1.metadata.getD defaultMetadata).ttl =
      some (dupEnv.now + JOB_TTL_MS) :=
  (startJob_async_transition dupEnv "job-1" dupJob
    { operationName := some "operations/op-123" } rfl rfl rfl).2.1

/-- Claim C7: on the synchronous path the success write has a nonempty files
array exactly when the adapter output carries a truthy storage URI, and the
files field is absent otherwise; when present, the single entry is named file0
plus the inferred extension and carries the signed URL obtained from the
generator before the write, the URI itself, and the optional media type and
size. -/
theorem startJob_sync_files (env : StartEnv) (jobId : String) (job : JobNode)
    (r : StartResult) (out : AdapterOutput)
    (hv : isValidModelId job.model = true)
    (hr : env.adapterResult = .ok r)
    (hop : jsTruthyStr r.operationName = false)
    (hout : r.output = some out) :
    (startJob env jobId job).1.status = "succeeded" ∧
    (¬ (startJob env jobId job).1.files = none ↔ jsTruthyStr out.uri = true) ∧
    (∀ u, out.uri = some u → u ≠ "" →
      (startJob env jobId job).1.files =
        some [ { name := "file0" ++ getFileExtension (some u) out.mimeType,
                 gs := u,
                 https := (env.signUrl u).getD "",
                 mimeType := if jsTruthyStr out.mimeType then out.mimeType else none,
                 size := out.size } ]) := by
  have hs : (startJob env jobId job).1 = succeededWrite env r out (startingWrite env.now job) := by
    simp [startJob, hv, hr, hop, hout]
  refine ⟨by rw [hs]; rfl, ?_, ?_⟩
  · rw [hs]
    unfold succeededWrite withMeta
    cases hu : out.uri with
    | none => simp [syncFileList, hu, jsTruthyStr]
    | some u =>
      by_cases hue : u = ""
      · subst hue
        simp [syncFileList, hu, jsTruthyStr]
      · simp [syncFileList, hu, jsTruthyStr, hue]
  · intro u hu hue
    rw [hs]
    unfold succeededWrite withMeta
    simp [syncFileList, hu, hue]

/-- Claim C7 witness: the synchronous media result produces exactly one file
entry named from the inferred extension, carrying the pre-generated signed
URL. -/
theorem startJob_sync_files_witness :
    (startJob syncEnv "job-7" syncJob).1.files =
      some [ { name := "file0" ++
                 getFileExtension (some "gs://bucket/firegen-jobs/j7/video-out.mp4")
                   (some "video/mp4"),
               gs := "gs://bucket/firegen-jobs/j7/video-out.mp4",
               https := (syncEnv.signUrl "gs://bucket/firegen-jobs/j7/video-out.mp4").getD "",
               mimeType := if jsTruthyStr (some "video/mp4") then some "video/mp4" else none,
               size := some 1024 } ] :=
  (startJob_sync_files syncEnv "job-7" syncJob syncResult
    { uri := some "gs://bucket/firegen-jobs/j7/video-out.mp4",
      mimeType := some "video/mp4", size := some 1024 }
    rfl rfl rfl rfl).2.2 "gs://bucket/firegen-jobs/j7/video-out.mp4" rfl (by decide)

/-- Claim C6: when the analysis of a free-text job throws, the job record is
written exactly once, as status failed with error code AI_ANALYSIS_FAILED and
with the original prompt preserved under assisted, and no backend submission
or retry occurs. -/
theorem analyzeAndTransformJob_failure (env : AnalyzeEnv) (jobId prompt uid msg : String)
    (h : env.assistedResult = .error msg) :
    (analyzeAndTransformJob env jobId prompt uid).2 =
      [JobEvent.dbWrite (analyzeAndTransformJob env jobId prompt uid).1] ∧
    (analyzeAndTransformJob env jobId prompt uid).1.status = "failed" ∧
    (analyzeAndTransformJob env jobId prompt uid).1.error =
      some { code := "AI_ANALYSIS_FAILED", message := "AI analysis failed: " ++ msg } ∧
    (analyzeAndTransformJob env jobId prompt uid).1.assisted =
      some { prompt := prompt, reasons := [] } ∧
    countAdapterStarts (analyzeAndTransformJob env jobId prompt uid).2 = 0 := by
  refine ⟨?_, ?_, ?_, ?_, ?_⟩ <;> simp [analyzeAndTransformJob, h, countAdapterStarts]

/-- Claim C6 witness: the failure theorem applied to the fixture whose
analysis fails. -/
theorem analyzeAndTransformJob_failure_witness :
    (analyzeAndTransformJob failAnalyzeEnv "job-5" "draw a cat" "user-9").1.status = "failed" :=
  (analyzeAndTransformJob_failure failAnalyzeEnv "job-5" "draw a cat" "user-9"
    "model call failed" rfl).2.1

/-- Claim C3 counterexample: the succeeding analyzer's first write is a record
with status requested that already carries ttl and nextPoll, so the polling
metadata is not exclusive to status running. -/
theorem analyzer_requested_write_carries_ttl :
    okAnalyzeWritten.status = "requested" ∧
    (okAnalyzeWritten.metadata.getD defaultMetadata).ttl = some (40 + JOB_TTL_MS) ∧
    (okAnalyzeWritten.metadata.getD defaultMetadata).nextPoll = some (40 + POLL_INTERVAL_MS) :=
  ⟨rfl, rfl, rfl⟩

/-- Claim C3 (amended): ttl and nextPoll are seeded at creation or transform
time rather than at the running transition alone: the analyzer's transformed
job is written with status requested and ttl = now + JOB_TTL_MS,
nextPoll = now + POLL_INTERVAL_MS, and the poller's metadata initializer for
fresh jobs seeds the same values. -/
theorem analyzer_seeds_polling_metadata (env : AnalyzeEnv) (jobId prompt uid : String)
    (a : Analyzed) (h : env.assistedResult = .ok a) :
    (firstWrite (analyzeAndTransformJob env jobId prompt uid).2).map JobNode.status =
      some "requested" ∧
    (firstWrite (analyzeAndTransformJob env jobId prompt uid).2).map
      (fun j => (j.metadata.getD defaultMetadata).ttl) = some (some (env.now + JOB_TTL_MS)) ∧
    (firstWrite (analyzeAndTransformJob env jobId prompt uid).2).map
      (fun j => (j.metadata.getD defaultMetadata).nextPoll) =
      some (some (env.now + POLL_INTERVAL_MS)) ∧
    (initJobMetadata env.now).ttl = some (env.now + JOB_TTL_MS) ∧
    (initJobMetadata env.now).nextPoll = some (env.now + POLL_INTERVAL_MS) := by
  refine ⟨?_, ?_, ?_, rfl, rfl⟩ <;>
    simp [analyzeAndTransformJob, h, firstWrite, writtenNodes]

/-- Claim C3 witness: the amended theorem applied to the succeeding analyzer
fixture. -/
theorem analyzer_seeds_polling_metadata_witness :
    (firstWrite (analyzeAndTransformJob okAnalyzeEnv "job-1" "make a video" "user-7").2).map
      JobNode.status = some "requested" :=
  (analyzer_seeds_polling_metadata okAnalyzeEnv "job-1" "make a video" "user-7"
    okAnalyzed rfl).1

/-- Helper: a hit in the reference table is within bounds and reads back the
stored reference. -/
theorem refIndex_getD (tbl : List String) (u : String) (i : Nat)
    (h : refIndex tbl u = some i) : i < tbl.length ∧ tbl.getD i "" = u := by
  induction tbl generalizing i with
  | nil => simp [refIndex] at h
  | cons t ts ih =>
    rw [refIndex] at h
    by_cases ht : t == u
    · rw [if_pos ht] at h
      injection h with h0
      subst h0
      exact ⟨Nat.succ_pos _, by simpa using (beq_iff_eq.mp ht)⟩
    · rw [if_neg ht] at h
      rcases Option.map_eq_some'.mp h with ⟨j, hj, hji⟩
      obtain ⟨hjl, hjg⟩ := ih j hj
      subst hji
      exact ⟨Nat.succ_lt_succ hjl, by simpa using hjg⟩

/-- Helper: the tagging pass only appends to the reference table. -/
theorem tagGo_table_extends (ts : List String) (tbl : List String) :
    ∃ ext, (tagGo tbl ts).2 = tbl ++ ext := by
  induction ts generalizing tbl with
  | nil => exact ⟨[], by simp [tagGo]⟩
  | cons t ts ih =>
    by_cases hr : isStorageRef t = true
    · cases hidx : refIndex tbl t with
      | some i =>
        obtain ⟨ext, hext⟩ := ih tbl
        exact ⟨ext, by simp [tagGo, hr, hidx, hext]⟩
      | none =>
        obtain ⟨ext, hext⟩ := ih (tbl ++ [t])
        refine ⟨t :: ext, ?_⟩
        simp [tagGo, hr, hidx, hext]
    · obtain ⟨ext, hext⟩ := ih tbl
      exact ⟨ext, by simp [tagGo, hr, hext]⟩

/-- Helper: reading the final table at a placeholder's index recovers the
reference byte-identically, for every starting table. -/
theorem tagGo_roundtrip (ts : List String) (tbl : List String) :
    ((tagGo tbl ts).1).map (resolveTok (tagGo tbl ts).2) = ts := by
  induction ts generalizing tbl with
  | nil => simp [tagGo]
  | cons t ts ih =>
    by_cases hr : isStorageRef t = true
    · cases hidx : refIndex tbl t with
      | some i =>
        obtain ⟨hi, hget⟩ := refIndex_getD tbl t i hidx
        obtain ⟨ext, hext⟩ := tagGo_table_extends ts tbl
        simp only [tagGo, hr, if_true, hidx, List.map_cons, resolveTok, hext]
        rw [List.getD_append _ _ _ _ hi, hget]
        rw [← hext, ih tbl]
      | none =>
        obtain ⟨ext, hext⟩ := tagGo_table_extends ts (tbl ++ [t])
        simp only [tagGo, hr, if_true, hidx, List.map_cons, resolveTok, hext]
        have hlen : tbl.length < (tbl ++ [t]).length := by simp
        rw [List.getD_append _ _ _ _ hlen]
        have hself : (tbl ++ [t]).getD tbl.length "" = t := by
          rw [List.getD_append_right _ _ _ _ (Nat.le_refl _)]
          simp
        rw [hself]
        rw [← hext, ih (tbl ++ [t])]
    · simp only [tagGo, hr]
      simp only [Bool.false_eq_true, if_false, List.map_cons, resolveTok]
      rw [ih tbl]

/-- Helper: every placeholder produced by the tagging pass carries the media
type inferred from the reference it resolves to. -/
theorem tagGo_mime (ts : List String) (tbl : List String) (i : Nat) (m : String)
    (h : TagTok.placeholder i m ∈ (tagGo tbl ts).1) :
    m = inferMediaType ((tagGo tbl ts).2.getD i "") := by
  induction ts generalizing tbl with
  | nil => simp [tagGo] at h
  | cons t ts ih =>
    by_cases hr : isStorageRef t = true
    · cases hidx : refIndex tbl t with
      | some j =>
        obtain ⟨hj, hget⟩ := refIndex_getD tbl t j hidx
        obtain ⟨ext, hext⟩ := tagGo_table_extends ts tbl
        simp only [tagGo, hr, if_true, hidx, List.mem_cons] at h ⊢
        rcases h with h | h
        · injection h with hji hmi
          subst hji
          subst hmi
          rw [hext, List.getD_append _ _ _ _ hj, hget]
        · exact ih tbl h
      | none =>
        obtain ⟨ext, hext⟩ := tagGo_table_extends ts (tbl ++ [t])
        simp only [tagGo, hr, if_true, hidx, List.mem_cons] at h ⊢
        rcases h with h | h
        · injection h with hji hmi
          subst hji
          subst hmi
          have hlen : tbl.length < (tbl ++ [t]).length := by simp
          have hself : (tbl ++ [t]).getD tbl.length "" = t := by
            rw [List.getD_append_right _ _ _ _ (Nat.le_refl _)]
            simp
          rw [hext, List.getD_append _ _ _ _ hlen, hself]
        · exact ih (tbl ++ [t]) h
    · simp only [tagGo, hr, Bool.false_eq_true, if_false, List.mem_cons] at h ⊢
      rcases h with h | h
      · exact absurd h (by simp)
      · exact ih tbl h

/-- Claim C9: tagging free text and resolving the placeholders is the
identity on the token stream, so every storage reference reappears
byte-identical; every placeholder carries exactly the media type inferred
from the extension of the reference it resolves to, and the inference maps a
jpg reference to image/jpeg and a png reference to image/png. -/
theorem url_tagging_roundtrip (ts : List String) :
    ((tagReferences ts).1).map (resolveTok (tagReferences ts).2) = ts ∧
    (∀ i m, TagTok.placeholder i m ∈ (tagReferences ts).1 →
      m = inferMediaType ((tagReferences ts).2.getD i "")) ∧
    inferMediaType "gs://bucket/path/name.jpg" = "image/jpeg" ∧
    inferMediaType "gs://bucket/path/name.png" = "image/png" := by
  refine ⟨tagGo_roundtrip ts [], fun i m h => tagGo_mime ts [] i m h, ?_, ?_⟩ <;> rfl

/-- Claim C9 witness: a concrete prompt with an embedded storage reference
round-trips byte-identically through tagging and resolution. -/
theorem url_tagging_roundtrip_witness :
    ((tagReferences ["animate", "gs://bucket/path/name.jpg", "please"]).1).map
      (resolveTok (tagReferences ["animate", "gs://bucket/path/name.jpg", "please"]).2) =
      ["animate", "gs://bucket/path/name.jpg", "please"] :=
  (url_tagging_roundtrip ["animate", "gs://bucket/path/name.jpg", "please"]).1

end Firegen
